import Mathlib

/-!
Verification of the service-doctor failure-tracking and alert-escalation
engine (repository: cemakpolat/python-projects, directory service-doctor,
with a simple-version and a solid-version implementation).

Timestamps and durations are modelled as integers (an instant on a linear
time axis); lists of timestamps keep the chronological append order of the
Python lists.  Stateful Python code is modelled by explicit state passing:
each function takes the relevant state and returns the new state together
with its observable effects (events saved, alert decision, notification
payload).  External I/O outcomes (SMTP and webhook transport, database
query results) are passed in as explicit parameters.
-/

namespace ServiceDoctor

/-- Event kinds, from EventType in solid-version/main.py (check, restart,
failure); the simple version uses the same three string tags. -/
inductive EventType
  | check
  | restart
  | failure
deriving DecidableEq, BEq, Repr

/-- ServiceEvent from solid-version/main.py: service name, event type,
success flag and timestamp (the optional message field is never read by
the logic verified here and is omitted). -/
structure ServiceEvent where
  service_name : String
  event_type : EventType
  success : Bool
  timestamp : Int
deriving DecidableEq, BEq, Repr

/-- Bool test for a kind occurring among a list of recorded events. -/
def has_kind (k : EventType) (events : List ServiceEvent) : Bool :=
  events.any (fun e => e.event_type == k)

/-- record_failure from simple-version/main.py (lines 131-146): append now
to the failure list of the service, prune entries with t < now - alert
window, and decide whether the alert threshold is reached on the pruned
list.  Returns the new failure window and the alert decision.  The
InfluxDB side effect is modelled separately in the scan step. -/
def record_failure (alert_window_hours : Int) (alert_threshold : Nat)
    (now : Int) (failures : List Int) : List Int × Bool :=
  let appended := failures ++ [now]
  let cutoff := now - alert_window_hours
  let pruned := appended.filter (fun t => decide (cutoff ≤ t))
  (pruned, decide (alert_threshold ≤ pruned.length))

/-- Outcome of one backend call db.get_failures(service, since): either a
returned list of timestamps (possibly empty) or a raised exception. -/
inductive QueryResult
  | ok (timestamps : List Int)
  | exn
deriving DecidableEq, BEq, Repr

/-- Bool test for a backend result that yields no data: a raised exception
(caught and logged by the caller) or an empty list. -/
def no_data : QueryResult → Bool
  | QueryResult.ok l => l.isEmpty
  | QueryResult.exn => true

/-- ServiceDoctor.get_recent_failures from solid-version/main.py (lines
579-596): try each registered database in order and return the first
non-empty result; an exception from a backend is caught, logged and
skipped.  If no backend yields data, prune the in-memory window at the
cutoff and return it (the Python code also stores the pruned list back
into self.service_failures, modelled by the second component). -/
def get_recent_failures : List QueryResult → List Int → Int → List Int × List Int
  | [], mem, cutoff =>
      let pruned := mem.filter (fun t => decide (cutoff ≤ t))
      (pruned, pruned)
  | QueryResult.ok l :: rest, mem, cutoff =>
      if l.isEmpty then get_recent_failures rest mem cutoff else (l, mem)
  | QueryResult.exn :: rest, mem, cutoff =>
      get_recent_failures rest mem cutoff

/-- InfluxDBRepository.get_failures from solid-version/main.py (lines
305-308): the query is not implemented and the method returns an empty
list for every service name and since instant. -/
def influx_get_failures (service_name : String) (since : Int) : List Int :=
  []

/-- Result of one per-service scan step: the events saved (in save order),
the in-memory failure window afterwards, whether an alert was dispatched,
and the failure list handed to the notification channels (empty when no
alert fired). -/
structure ScanOutcome where
  events : List ServiceEvent
  window : List Int
  alerted : Bool
  alertFailures : List Int
deriving DecidableEq, Repr

/-- One iteration of scan_services from simple-version/main.py (lines
324-349) for a single service: running services log a check event (only
when InfluxDB is enabled); a down service is restarted, a successful
restart logs a restart event (only when InfluxDB is enabled); a failed
restart calls record_failure, which updates the window, decides the
alert, and then saves a failure event (only when InfluxDB is enabled).
No restart event is saved when the restart fails. -/
def scan_service_simple (influxEnabled : Bool) (name : String)
    (alert_window_hours : Int) (alert_threshold : Nat) (now : Int)
    (mem : List Int) (isRunning restartOk : Bool) : ScanOutcome :=
  if isRunning then
    { events := if influxEnabled then [⟨name, EventType.check, true, now⟩] else []
      window := mem, alerted := false, alertFailures := [] }
  else if restartOk then
    { events := if influxEnabled then [⟨name, EventType.restart, true, now⟩] else []
      window := mem, alerted := false, alertFailures := [] }
  else
    let rf := record_failure alert_window_hours alert_threshold now mem
    { events := if influxEnabled then [⟨name, EventType.failure, false, now⟩] else []
      window := rf.1, alerted := rf.2
      alertFailures := if rf.2 then rf.1 else [] }

/-- One iteration of ServiceDoctor.scan_services from solid-version/main.py
(lines 632-669) for a single service: running services save a check event;
a down service is restarted and a restart event with the restart outcome is
always saved; when the restart failed, record_failure (lines 598-619) saves
a failure event, appends now to the in-memory window, queries
get_recent_failures, and dispatches alerts when the threshold is reached.
The embedding identifies the consecutive datetime.now() calls of one step
with the single instant now. -/
def scan_service_solid (name : String) (alert_window_hours : Int)
    (alert_threshold : Nat) (now : Int) (mem : List Int)
    (dbResults : List QueryResult) (isRunning restartOk : Bool) : ScanOutcome :=
  if isRunning then
    { events := [⟨name, EventType.check, true, now⟩]
      window := mem, alerted := false, alertFailures := [] }
  else
    let restartEvent : ServiceEvent := ⟨name, EventType.restart, restartOk, now⟩
    if restartOk then
      { events := [restartEvent], window := mem, alerted := false, alertFailures := [] }
    else
      let failureEvent : ServiceEvent := ⟨name, EventType.failure, false, now⟩
      let mem2 := mem ++ [now]
      let res := get_recent_failures dbResults mem2 (now - alert_window_hours)
      let alert := decide (alert_threshold ≤ res.1.length)
      { events := [restartEvent, failureEvent], window := res.2
        alerted := alert, alertFailures := if alert then res.1 else [] }

/-- Outcome of one backend call db.save_event(event): a returned success
flag or a raised exception. -/
inductive SaveOutcome
  | ok (returned : Bool)
  | exn
deriving DecidableEq, Repr

/-- The body of one iteration of the save loop in ServiceDoctor.save_event:
db.save_event(event) runs inside a try block whose except clause catches
every exception and logs it, so control returns to the loop (some) for
both outcomes; none would mean an exception escaped the iteration, which
the except clause makes unreachable. -/
def save_iteration : SaveOutcome → Option Unit
  | SaveOutcome.ok _ => some ()
  | SaveOutcome.exn => some ()

/-- ServiceDoctor.save_event from solid-version/main.py (lines 571-577):
loop over the registered databases (listed as position-outcome pairs),
attempting db.save_event on each inside try/except.  Returns the
positions whose save was attempted, in order, and some () when the method
returns normally; none would mean an exception escaped to the caller and
aborted the loop at that backend. -/
def save_event (dbs : List (Nat × SaveOutcome)) : List Nat × Option Unit :=
  match dbs with
  | [] => ([], some ())
  | (i, o) :: rest =>
      match save_iteration o with
      | some _ =>
          let r := save_event rest
          (i :: r.1, r.2)
      | none => ([i], none)

/-- RedisRepository.get_failures from solid-version/main.py (lines
359-369): the failure set of a service is a Redis sorted set whose scores
are the failure timestamps; the query runs ZRANGEBYSCORE from since to
plus infinity, whose range is inclusive per the Redis command semantics,
returning the timestamps t with since ≤ t. -/
def redis_get_failures (since : Int) (failures : List Int) : List Int :=
  failures.filter (fun t => decide (since ≤ t))

/-- RedisRepository.cleanup_old_records (lines 371-384): runs
ZREMRANGEBYSCORE from minus infinity to the cutoff on each key; the range
is inclusive at the cutoff per the Redis command semantics, so members
with t ≤ cutoff are removed and exactly the members with cutoff < t
remain. -/
def redis_cleanup_old_records (cutoff : Int) (failures : List Int) : List Int :=
  failures.filter (fun t => !(decide (t ≤ cutoff)))

/-- MongoDBRepository.get_failures (lines 427-441): find the events of the
service with event_type failure and timestamp at least since (query
operator gte), returning their timestamps. -/
def mongodb_get_failures (name : String) (since : Int)
    (events : List ServiceEvent) : List Int :=
  (events.filter (fun e =>
      e.service_name == name && e.event_type == EventType.failure
        && decide (since ≤ e.timestamp))).map ServiceEvent.timestamp

/-- MongoDBRepository.cleanup_old_records (lines 443-449): delete_many of
the documents with timestamp strictly below the cutoff (query operator
lt); the events not strictly older than the cutoff remain. -/
def mongodb_cleanup_old_records (cutoff : Int)
    (events : List ServiceEvent) : List ServiceEvent :=
  events.filter (fun e => !(decide (e.timestamp < cutoff)))

/-- Python truthiness of an optional string configuration value: an absent
value (None) and the empty string are falsy. -/
def falsy : Option String → Bool
  | none => true
  | some s => s.isEmpty

/-- Result of one send_notification call: whether any network I/O was
attempted, and the returned success flag. -/
structure NotifyResult where
  networkAttempted : Bool
  success : Bool
deriving DecidableEq, Repr

/-- EmailNotificationSender.send_notification from solid-version/main.py
(lines 157-191): a missing password returns False before any network
call; otherwise the SMTP session runs, and the parameter transport stands
for its outcome (true: the session completed and the method returns True;
false: an exception was raised, caught and logged, and the method returns
False). -/
def email_send_notification (password : Option String)
    (transport : Bool) : NotifyResult :=
  if falsy password then ⟨false, false⟩ else ⟨true, transport⟩

/-- SlackNotificationSender.send_notification (lines 196-231): a missing
webhook URL returns False before any network call; otherwise the POST
runs and transport stands for its outcome (status 200 versus an error
status or an exception). -/
def slack_send_notification (webhook_url : Option String)
    (transport : Bool) : NotifyResult :=
  if falsy webhook_url then ⟨false, false⟩ else ⟨true, transport⟩

/-- TeamsNotificationSender.send_notification (lines 236-267): the same
guard on the webhook URL. -/
def teams_send_notification (webhook_url : Option String)
    (transport : Bool) : NotifyResult :=
  if falsy webhook_url then ⟨false, false⟩ else ⟨true, transport⟩

/-- send_email_alert from simple-version/main.py (lines 149-186): returns
early, before building the message or touching the network, when the
channel is disabled or the password is missing; the function returns no
value, so only whether network I/O was attempted is modelled. -/
def send_email_alert (enabled : Bool) (password : Option String) : Bool :=
  if !enabled || falsy password then false else true

/-- The observable startup actions of ServiceDoctor.run from
solid-version/main.py (lines 681-715), in program order. -/
inductive RunAction
  | warnNoServices
  | initialScan
  | scheduleScan (minutes : Nat)
  | scheduleCleanup (hours : Nat)
  | enterLoop
deriving DecidableEq, BEq, Repr

/-- ServiceDoctor.run (lines 681-701): with no configured services the
method logs a warning and returns at once; otherwise it runs an initial
scan, schedules the periodic scan every scan_interval_minutes minutes,
schedules the hourly retention cleanup, and enters the monitoring loop. -/
def run (services : List String) (scan_interval_minutes : Nat) : List RunAction :=
  if services.isEmpty then [RunAction.warnNoServices]
  else [RunAction.initialScan, RunAction.scheduleScan scan_interval_minutes,
        RunAction.scheduleCleanup 1, RunAction.enterLoop]

/-- Claim C1: for every window duration (non-negative), threshold, current
instant and previously appended timestamps, record_failure yields exactly
the previously appended timestamps t with now - t within the window, plus
the newly appended now; no timestamp of the result lies outside the
window, and the alert decision is the threshold test on the length of this
pruned window. -/
theorem C1_record_failure_window (w : Int) (thr : Nat) (now : Int)
    (ts : List Int) (hw : 0 ≤ w) :
    (record_failure w thr now ts).1
        = ts.filter (fun t => decide (now - t ≤ w)) ++ [now]
    ∧ ((record_failure w thr now ts).1.all (fun t => decide (now - t ≤ w))) = true
    ∧ (record_failure w thr now ts).2
        = decide (thr ≤ (record_failure w thr now ts).1.length) := by
  have hpred : ∀ t : Int, decide (now - w ≤ t) = decide (now - t ≤ w) := by
    intro t
    rw [decide_eq_decide]
    omega
  have h1 : (record_failure w thr now ts).1
      = ts.filter (fun t => decide (now - t ≤ w)) ++ [now] := by
    show (ts ++ [now]).filter (fun t => decide (now - w ≤ t)) = _
    rw [List.filter_append]
    have hnow : (now - w ≤ now) := by omega
    simp only [hpred, List.filter_cons, List.filter_nil]
    simp [hnow, hw]
  refine ⟨h1, ?_, rfl⟩
  rw [h1]
  simp only [List.all_eq_true, List.mem_append, List.mem_filter, List.mem_singleton]
  intro t ht
  rcases ht with h | h
  · exact h.2
  · subst h
    simp only [decide_eq_true_eq]
    omega

/-- Witness for C1 at a concrete input: window 10, threshold 2, now 100,
previous timestamps 85 (stale) and 95 (fresh). -/
theorem C1_record_failure_window_witness :
    (0 : Int) ≤ 10
    ∧ ((record_failure 10 2 100 [85, 95]).1
          = [85, 95].filter (fun t => decide ((100 : Int) - t ≤ 10)) ++ [100]
        ∧ ((record_failure 10 2 100 [85, 95]).1.all
            (fun t => decide ((100 : Int) - t ≤ 10))) = true
        ∧ (record_failure 10 2 100 [85, 95]).2
          = decide (2 ≤ (record_failure 10 2 100 [85, 95]).1.length)) :=
  ⟨by decide, C1_record_failure_window 10 2 100 [85, 95] (by decide)⟩

/-- Claim C2 counterexample: in the simple version (InfluxDB enabled), the
down-and-failed-restart path records only a Failure event; no failed
Restart event is recorded before it, contrary to the claim. -/
theorem C2_simple_no_restart_event_cex :
    (scan_service_simple true "svc1" 1 3 0 [] false false).events
        = [⟨"svc1", EventType.failure, false, 0⟩]
    ∧ has_kind EventType.restart
        ((scan_service_simple true "svc1" 1 3 0 [] false false).events) = false :=
  ⟨rfl, rfl⟩

/-- Claim C2 (amended): in the solid version, the down-and-failed-restart
path records a failed Restart event and then a Failure event, a Failure
event appears exactly in that path, and a Restart event is recorded
exactly when the service is down; in the simple version the same path
records only a Failure event (when InfluxDB is enabled) and never any
Restart event. -/
theorem C2_scan_event_order (name : String) (w : Int) (thr : Nat) (now : Int)
    (mem : List Int) (dbs : List QueryResult) (running rOk influx : Bool) :
    (scan_service_solid name w thr now mem dbs false false).events
        = [⟨name, EventType.restart, false, now⟩, ⟨name, EventType.failure, false, now⟩]
    ∧ has_kind EventType.failure
        ((scan_service_solid name w thr now mem dbs running rOk).events)
        = (!running && !rOk)
    ∧ has_kind EventType.restart
        ((scan_service_solid name w thr now mem dbs running rOk).events)
        = !running
    ∧ (scan_service_simple true name w thr now mem false false).events
        = [⟨name, EventType.failure, false, now⟩]
    ∧ has_kind EventType.restart
        ((scan_service_simple influx name w thr now mem false false).events)
        = false := by
  refine ⟨rfl, ?_, ?_, rfl, ?_⟩ <;>
    cases running <;> cases rOk <;> cases influx <;>
      simp [scan_service_solid, scan_service_simple, has_kind] <;> decide

/-- Helper: when every backend result carries no data (empty list or
exception), get_recent_failures falls back to the pruned in-memory
window. -/
theorem get_recent_failures_of_all_no_data (results : List QueryResult)
    (mem : List Int) (cutoff : Int) (h : results.all no_data = true) :
    (get_recent_failures results mem cutoff).1
      = mem.filter (fun t => decide (cutoff ≤ t)) := by
  induction results with
  | nil => rfl
  | cons r rs ih =>
      simp only [List.all_cons, Bool.and_eq_true] at h
      cases r with
      | ok l =>
          have hl : l.isEmpty = true := h.1
          simpa [get_recent_failures, hl] using ih h.2
      | exn => simpa [get_recent_failures] using ih h.2

/-- Helper: the first backend, in registration order, whose query returns a
non-empty list supplies the result of get_recent_failures. -/
theorem get_recent_failures_first_nonempty (pre rest : List QueryResult)
    (mem : List Int) (cutoff : Int) (l : List Int)
    (hpre : pre.all no_data = true) (hl : l.isEmpty = false) :
    (get_recent_failures (pre ++ QueryResult.ok l :: rest) mem cutoff).1 = l := by
  induction pre with
  | nil => simp [get_recent_failures, hl]
  | cons r rs ih =>
      simp only [List.all_cons, Bool.and_eq_true] at hpre
      cases r with
      | ok l2 =>
          have h2 : l2.isEmpty = true := hpre.1
          simpa [get_recent_failures, h2] using ih hpre.2
      | exn => simpa [get_recent_failures] using ih hpre.2

/-- Claim C3: the failure list used for the alert decision is the result of
the first backend, in registration order, whose query returns a non-empty
sequence (earlier backends all returned empty or raised); and when every
backend returns empty or raises, the decision falls back to the pruned
in-memory window. -/
theorem C3_first_nonempty_wins (pre rest results : List QueryResult)
    (mem : List Int) (cutoff : Int) (l : List Int)
    (hpre : pre.all no_data = true) (hl : l.isEmpty = false)
    (hres : results.all no_data = true) :
    (get_recent_failures (pre ++ QueryResult.ok l :: rest) mem cutoff).1 = l
    ∧ (get_recent_failures results mem cutoff).1
        = mem.filter (fun t => decide (cutoff ≤ t)) :=
  ⟨get_recent_failures_first_nonempty pre rest mem cutoff l hpre hl,
   get_recent_failures_of_all_no_data results mem cutoff hres⟩

/-- Witness for C3 at a concrete input: an empty backend and a raising
backend precede a backend returning the non-empty list 5, 7; and a list of
backends that all return no data falls back to the pruned window. -/
theorem C3_first_nonempty_wins_witness :
    ([QueryResult.ok [], QueryResult.exn].all no_data = true
      ∧ ([(5 : Int), 7].isEmpty = false
      ∧ [QueryResult.exn, QueryResult.ok []].all no_data = true))
    ∧ ((get_recent_failures
          ([QueryResult.ok [], QueryResult.exn]
            ++ QueryResult.ok [(5 : Int), 7] :: [QueryResult.ok [9]]) [1, 2] 0).1
            = [5, 7]
        ∧ (get_recent_failures [QueryResult.exn, QueryResult.ok []] [1, 2] 0).1
            = [1, 2].filter (fun t => decide ((0 : Int) ≤ t))) :=
  ⟨⟨by decide, by decide, by decide⟩,
   C3_first_nonempty_wins [QueryResult.ok [], QueryResult.exn] [QueryResult.ok [9]]
     [QueryResult.exn, QueryResult.ok []] [1, 2] 0 [5, 7]
     (by decide) (by decide) (by decide)⟩

/-- Claim C4 counterexample: with alert window duration zero and threshold
one, recording a single failure does reach the alert decision as true: the
pruning comparison keeps entries with t at least now, so the freshly
appended now itself survives and the window has length one. -/
theorem C4_zero_window_alerts_cex :
    (record_failure 0 1 0 []).2 = true ∧ (record_failure 0 1 0 []).1 = [0] :=
  ⟨rfl, rfl⟩

/-- Claim C4 (amended): with alert window duration zero, pruning removes
every strictly older timestamp but keeps the freshly appended now, so the
window after record_failure at a fresh instant is exactly the singleton
now, and the alert fires precisely when the threshold is at most one;
escalation is disabled only for thresholds of at least two. -/
theorem C4_zero_window (thr : Nat) (now : Int) (ts : List Int)
    (h : ts.all (fun t => decide (t < now)) = true) :
    (record_failure 0 thr now ts).1 = [now]
    ∧ (record_failure 0 thr now ts).2 = decide (thr ≤ 1) := by
  have h1 : (record_failure 0 thr now ts).1 = [now] := by
    show (ts ++ [now]).filter (fun t => decide (now - 0 ≤ t)) = [now]
    rw [List.filter_append]
    have hts : ts.filter (fun t => decide (now - 0 ≤ t)) = [] := by
      rw [List.filter_eq_nil_iff]
      intro a ha
      simp only [List.all_eq_true, decide_eq_true_eq] at h
      have := h a ha
      simp only [decide_eq_true_eq]
      omega
    rw [hts]
    simp
  have h2 : (record_failure 0 thr now ts).2
      = decide (thr ≤ (record_failure 0 thr now ts).1.length) := rfl
  rw [h2, h1]
  exact ⟨rfl, rfl⟩

/-- Witness for C4 at a concrete input: threshold 2, now 5, one stale
previous timestamp 3; the window collapses to the singleton 5 and no alert
fires. -/
theorem C4_zero_window_witness :
    ([(3 : Int)].all (fun t => decide (t < 5)) = true)
    ∧ ((record_failure 0 2 5 [3]).1 = [5]
        ∧ (record_failure 0 2 5 [3]).2 = decide (2 ≤ 1)) :=
  ⟨by decide, C4_zero_window 2 5 [3] (by decide)⟩

/-- Claim C5: for every list of registered backends with arbitrary save
outcomes, including raising ones, ServiceDoctor.save_event attempts the
save on every backend in registration order and returns normally: no
exception propagates to the scanner, so saving an event never interrupts
the scan cycle. -/
theorem C5_save_fanout_isolated (dbs : List (Nat × SaveOutcome)) :
    (save_event dbs).1 = dbs.map Prod.fst ∧ (save_event dbs).2 = some () := by
  induction dbs with
  | nil => exact ⟨rfl, rfl⟩
  | cons d rest ih =>
      obtain ⟨i, o⟩ := d
      cases o <;> simpa [save_event, save_iteration] using ih

/-- Claim C6: the down-and-successful-restart path leaves the per-service
in-memory failure window unchanged, in both versions; and in the concrete
scenario of failures at minutes 0 and 10 around a successful restart at
minute 5 with a 60-minute window, both failures still accumulate in the
window. -/
theorem C6_successful_restart_frame (name : String) (w : Int) (thr : Nat)
    (now : Int) (mem : List Int) (dbs : List QueryResult) (influx : Bool) :
    (scan_service_solid name w thr now mem dbs false true).window = mem
    ∧ (scan_service_simple influx name w thr now mem false true).window = mem
    ∧ (scan_service_simple false "svc1" 60 3 10
        ((scan_service_simple false "svc1" 60 3 5
          ((scan_service_simple false "svc1" 60 3 0 [] false false).window)
          false true).window)
        false false).window = [0, 10] := by
  exact ⟨rfl, rfl, by decide⟩

/-- Claim C7 counterexample: in the Redis backend an event with timestamp
exactly equal to the cutoff is queryable before cleanup but is deleted by
cleanup_old_records, because ZREMRANGEBYSCORE removes scores up to and
including the cutoff; the claim states that an event with timestamp equal
to the cutoff remains queryable in every backend. -/
theorem C7_redis_cutoff_inclusive_cex :
    redis_get_failures 0 [100] = [100]
    ∧ redis_cleanup_old_records 100 [100] = []
    ∧ redis_get_failures 0 (redis_cleanup_old_records 100 [100]) = [] := by
  exact ⟨by decide, by decide, by decide⟩

/-- Claim C7 (amended): MongoDB cleanup deletes exactly the events strictly
older than the cutoff, so an event with timestamp equal to or newer than
the cutoff remains, and the MongoDB failure query at the cutoff is
unchanged by the cleanup; Redis cleanup instead removes every entry with
timestamp up to and including the cutoff, keeping exactly the strictly
newer ones. -/
theorem C7_cleanup_characterization (cutoff : Int) (events : List ServiceEvent)
    (scores : List Int) (name : String) :
    mongodb_cleanup_old_records cutoff events
        = events.filter (fun e => decide (cutoff ≤ e.timestamp))
    ∧ redis_cleanup_old_records cutoff scores
        = scores.filter (fun t => decide (cutoff < t))
    ∧ mongodb_get_failures name cutoff (mongodb_cleanup_old_records cutoff events)
        = mongodb_get_failures name cutoff events := by
  have hm : ∀ e : ServiceEvent,
      (!(decide (e.timestamp < cutoff))) = decide (cutoff ≤ e.timestamp) := by
    intro e
    by_cases hlt : e.timestamp < cutoff
    · simp [hlt, show ¬ cutoff ≤ e.timestamp by omega]
    · simp [hlt, show cutoff ≤ e.timestamp by omega]
  have hr : ∀ t : Int, (!(decide (t ≤ cutoff))) = decide (cutoff < t) := by
    intro t
    by_cases hle : t ≤ cutoff
    · simp [hle, show ¬ cutoff < t by omega]
    · simp [hle, show cutoff < t by omega]
  have hclean : mongodb_cleanup_old_records cutoff events
      = events.filter (fun e => decide (cutoff ≤ e.timestamp)) :=
    List.filter_congr (fun e _ => hm e)
  refine ⟨hclean, List.filter_congr (fun t _ => hr t), ?_⟩
  unfold mongodb_get_failures
  rw [hclean, List.filter_filter]
  congr 1
  apply List.filter_congr
  intro e _
  by_cases h2 : cutoff ≤ e.timestamp
  · simp [h2]
  · simp [h2]

/-- Claim C8: a notification channel whose required configuration field is
missing (absent or empty email password, absent or empty webhook URL)
returns failure without attempting any network I/O, for every transport
outcome; the simple-version email path likewise returns before any
network I/O. -/
theorem C8_missing_config_guard (pw u1 u2 : Option String)
    (t1 t2 t3 enabled : Bool)
    (hpw : falsy pw = true) (h1 : falsy u1 = true) (h2 : falsy u2 = true) :
    email_send_notification pw t1 = ⟨false, false⟩
    ∧ slack_send_notification u1 t2 = ⟨false, false⟩
    ∧ teams_send_notification u2 t3 = ⟨false, false⟩
    ∧ send_email_alert enabled pw = false := by
  refine ⟨?_, ?_, ?_, ?_⟩ <;>
    simp [email_send_notification, slack_send_notification,
      teams_send_notification, send_email_alert, hpw, h1, h2]

/-- Witness for C8 at concrete inputs: an absent email password, an empty
Slack webhook URL and an absent Teams webhook URL each yield failure with
no network I/O, for both transport outcomes; the simple-version email
path attempts no network I/O either. -/
theorem C8_missing_config_guard_witness :
    (falsy none = true ∧ falsy (some "") = true ∧ falsy none = true)
    ∧ (email_send_notification none true = ⟨false, false⟩
        ∧ slack_send_notification (some "") true = ⟨false, false⟩
        ∧ teams_send_notification none false = ⟨false, false⟩
        ∧ send_email_alert true none = false) :=
  ⟨⟨rfl, rfl, rfl⟩,
   C8_missing_config_guard none (some "") none true true false true rfl rfl rfl⟩

/-- Claim C9: the InfluxDB backend query is a stub returning the empty
sequence for every service name and since instant, so a registered
InfluxDB backend never supplies the failure list: get_recent_failures on
a backend list headed by the InfluxDB result always falls through to the
remaining backends. -/
theorem C9_influx_stub_falls_through (name : String) (since : Int)
    (rest : List QueryResult) (mem : List Int) (cutoff : Int) :
    influx_get_failures name since = []
    ∧ get_recent_failures
        (QueryResult.ok (influx_get_failures name since) :: rest) mem cutoff
        = get_recent_failures rest mem cutoff :=
  ⟨rfl, rfl⟩

/-- Claim C10: with an empty configured services list, ServiceDoctor.run
only logs the warning and returns: its action trace is exactly that
warning, with no initial scan, no scheduled periodic scan for any
interval, no retention cleanup and no monitoring loop. -/
theorem C10_run_empty_services (scan_interval_minutes : Nat) :
    run [] scan_interval_minutes = [RunAction.warnNoServices]
    ∧ ((run [] scan_interval_minutes).contains RunAction.initialScan) = false
    ∧ (∀ m : Nat,
        ((run [] scan_interval_minutes).contains (RunAction.scheduleScan m)) = false)
    ∧ ((run [] scan_interval_minutes).contains (RunAction.scheduleCleanup 1)) = false
    ∧ ((run [] scan_interval_minutes).contains RunAction.enterLoop) = false := by
  exact ⟨rfl, rfl, fun m => rfl, rfl, rfl⟩

end ServiceDoctor
